import Mathlib

/-!
Shallow embedding of `src/backup_validate.py` (the create → verify → retry →
rotate backup pipeline) together with theorems settling the specification
claims about it.

Conventions of the embedding:
* File contents are byte sequences (`Bytes := List Nat`).
* `hashlib.sha256(...).hexdigest()` is modelled by `sha256hex`, an injective
  fingerprint of the byte sequence: the development treats the hash as an
  ideal digest, exactly as the code uses it (digest equality as the proxy for
  content equality).  No theorem below relies on collision freeness.
* Python exceptions are values of `PyErr`; a fallible operation returns
  `Except PyErr α`.
* Python's `sorted` is a stable sort; it is embedded as the stable insertion
  sort `sortLe`, which agrees extensionally with every stable sort.
-/

/-- Byte sequences standing for file contents. -/
abbrev Bytes := List Nat

/-- Model of `hashlib.sha256(data).hexdigest()`: an injective string
fingerprint of the byte sequence.  It stands in for the SHA-256 compression
function, which the program only ever uses as an ideal content digest. -/
def sha256hex (data : Bytes) : String :=
  "h" ++ String.intercalate "," (data.map (fun b => toString b))

/-- `sha256_of_file` (lines 12-17): streams the file in 8192-byte chunks into
one hash accumulator.  Chunked reading feeds exactly the file's bytes in
order, so the digest is the digest of the whole content. -/
def sha256_of_file (content : Bytes) : String :=
  sha256hex content

/-- `str.encode()` on the ASCII hex digest strings: UTF-8 bytes, which for
ASCII are the character code points. -/
def strBytes (s : String) : Bytes :=
  s.data.map Char.toNat

/-- Stable insertion into a sorted list: `a` goes in front of the first
element `b` with `le a b`. -/
def insertLe (le : α → α → Bool) (a : α) : List α → List α
  | [] => [a]
  | b :: l => if le a b then a :: b :: l else b :: insertLe le a l

/-- Stable sort, the extensional behaviour of Python's `sorted`. -/
def sortLe (le : α → α → Bool) : List α → List α
  | [] => []
  | a :: l => insertLe le a (sortLe le l)

/-- Comparison used by `sorted` on `pathlib.Path` values sharing a common
root: lexicographic comparison of the (relative) path strings. -/
def pathLe (a b : String × Bytes) : Bool :=
  decide (a.1 ≤ b.1)

/-- `agg_checksum` (lines 66-71): list all files under the root, sort them by
path, and feed each file's hex digest (UTF-8 encoded) into one fresh hash
accumulator in that order.  A directory tree is embedded as the list of its
files, `(relative path, content)`; sorting full paths below a common root
orders them exactly like the relative paths. -/
def agg_checksum (files : List (String × Bytes)) : String :=
  sha256hex (((sortLe pathLe files).map (fun f => strBytes (sha256_of_file f.2))).foldr (· ++ ·) [])

/-- The Python exceptions this program can raise or catch (all of them are
`Exception` subclasses). -/
inductive PyErr where
  /-- an unbound name was used -/
  | nameError (missing : String)
  /-- `next()` on an exhausted iterator -/
  | stopIteration
  /-- an OS-level I/O failure, with its message -/
  | oserror (msg : String)
  /-- `open` on a directory -/
  | isADirectoryError
  /-- `shutil.rmtree` on a path that is a regular file, not a directory -/
  | notADirectoryError
  /-- `tarfile` failed to read/extract an archive -/
  | tarError (msg : String)
deriving DecidableEq, Repr

/-- `str(e)`, as interpolated into the log row by `main`. -/
def PyErr.toMsg : PyErr → String
  | .nameError missing => "name " ++ missing ++ " is not defined"
  | .stopIteration => ""
  | .oserror msg => msg
  | .isADirectoryError => "Is a directory"
  | .notADirectoryError => "Not a directory"
  | .tarError msg => msg

/-- A filesystem entry: a regular file with its bytes, or a directory given
as the flat list of the files below it, `(relative path, content)`. -/
inductive Entry where
  | file (content : Bytes)
  | dir (files : List (String × Bytes))
deriving DecidableEq, Repr

/-- The filesystem, as a finite map from paths (in the working directory) to
entries, represented by an association list. -/
abbrev FS := List (String × Entry)

/-- Path lookup. -/
def FS.lookup (s : FS) (p : String) : Option Entry :=
  match s.find? (fun x => x.1 == p) with
  | some x => some x.2
  | none => none

/-- `shutil.rmtree` / `unlink` at a path: drop every binding for it. -/
def FS.erase (s : FS) (p : String) : FS :=
  s.filter (fun x => !(x.1 == p))

/-- Write an entry at a path, replacing what was there. -/
def FS.insert (s : FS) (p : String) (e : Entry) : FS :=
  (p, e) :: s.erase p

/-- The source being backed up (spec: SourcePath): an existing readable file,
or an existing readable directory with its flat list of contained files. -/
inductive Source where
  | file (name : String) (content : Bytes)
  | dir (name : String) (files : List (String × Bytes))
deriving DecidableEq, Repr

/-- The artifact at `backup_path` as `verify_backup` reads it:
* `tar`: `tarfile.is_tarfile` is true and extraction yields these member
  files (paths relative to the extraction root, in the deterministic walk
  order `rglob` later uses);
* `badTar`: `tarfile.is_tarfile` is true but `extractall` raises;
* `plain`: not a tar container; the file's raw bytes. -/
inductive Backup where
  | tar (members : List (String × Bytes))
  | badTar (e : PyErr)
  | plain (content : Bytes)
deriving DecidableEq, Repr

/-- The fixed scratch path `"./.tmp_restore"` hard-coded at line 45. -/
def tmp_restore : String := "./.tmp_restore"

/-- The characters since the last `/` of a character list, accumulator
style. -/
def lastComponent : List Char → List Char → List Char
  | [], acc => acc
  | c :: cs, acc => if c = '/' then lastComponent cs [] else lastComponent cs (acc ++ [c])

/-- Base name of a relative path: its last `/`-separated component, the part
`rglob(pattern)` matches a plain-text pattern against. -/
def baseName (p : String) : String :=
  ⟨lastComponent p.data []⟩

/-- Strip a leading `pre` from `p` (`none` if `p` does not start with it). -/
def stripPre (pre p : String) : Option String :=
  if pre.isPrefixOf p then some (p.drop pre.length) else none

/-- The files of the subtree rooted at `tmpdir / name`: the members lying
under `name/`, re-rooted there (what `rglob("*")` from that root lists). -/
def subtreeFiles (members : List (String × Bytes)) (name : String) : List (String × Bytes) :=
  members.filterMap (fun m => (stripPre (name ++ "/") m.1).map (fun rel => (rel, m.2)))

/-- The `try:` body of `verify_backup` (lines 49-75), run on the state where
the scratch directory has just been created empty.  Returns the Python
result (`ok` for a `return`, `error` for a raised exception) and the state
as of leaving the body.  Line 54 (`restored_items = list(tmpdir.iterdir())`)
binds a variable that is never used and has no effect, so it is omitted. -/
def verify_body (source : Source) (backup : Backup) (s : FS) : Except PyErr Bool × FS :=
  match backup with
  | .badTar e => (.error e, s)
  | .tar members =>
      let s1 := s.insert tmp_restore (.dir members)
      match source with
      | .file name content =>
          match members.filter (fun m => baseName m.1 == name) with
          | [] => (.error .stopIteration, s1)
          | m :: _ =>
              (.ok (sha256_of_file content == sha256_of_file m.2), s1)
      | .dir name files =>
          (.ok (agg_checksum files == agg_checksum (subtreeFiles members name)), s1)
  | .plain content =>
      match source with
      | .file _ c => (.ok (sha256_of_file c == sha256_of_file content), s)
      | .dir _ _ => (.error .isADirectoryError, s)

/-- `verify_backup` (lines 42-77).  Scratch handling is literal: line 46
tests `tmpdir.exists()` at the fixed path `./.tmp_restore`.  When a
directory exists there, line 47's `shutil.rmtree` removes it; when a
regular file exists there, `shutil.rmtree` raises `NotADirectoryError`
before the `try`, leaving the state unchanged; when nothing exists there
the `rmtree` is skipped.  Then `mkdir` (line 48) creates the scratch empty,
the body runs under `try`, and the `finally:` (lines 76-77) `rmtree`s the
scratch on every exit path of the body. -/
def verify_backup (source : Source) (backup : Backup) (s : FS) : Except PyErr Bool × FS :=
  match FS.lookup s tmp_restore with
  | some (.file _) => (.error .notADirectoryError, s)
  | some (.dir _) =>
      let s2 := FS.insert (FS.erase s tmp_restore) tmp_restore (.dir [])
      let r := verify_body source backup s2
      (r.1, FS.erase r.2 tmp_restore)
  | none =>
      let s2 := FS.insert s tmp_restore (.dir [])
      let r := verify_body source backup s2
      (r.1, FS.erase r.2 tmp_restore)

/-- `make_backup` (lines 19-40).  Line 20 formats a timestamp and line 21
wraps `source` in `pathlib.Path`; neither can fail or touch the filesystem.
Line 22 then evaluates `Path(dest_dir)` — but the module only runs
`import pathlib` (line 10) and never binds the bare name `Path`, so every
call raises `NameError` there, before the destination directory is created
or any artifact is written; lines 23-40 are unreachable. -/
def make_backup (source : String) (dest_dir : String) (compress : Bool) (s : FS) :
    Except PyErr String × FS :=
  (.error (.nameError "Path"), s)

/-- One entry of the destination directory as `rotate_backups` sees it:
its name, whether `is_file()` holds, and its `st_mtime`. -/
structure DirEnt where
  name : String
  isFile : Bool
  mtime : Int
deriving DecidableEq, Repr

/-- `sorted(..., key=lambda x: x.stat().st_mtime, reverse=True)`: stable
descending order by modification time. -/
def mtimeDesc (a b : DirEnt) : Bool :=
  decide (b.mtime ≤ a.mtime)

/-- `rotate_backups` (lines 79-83): list the regular files of `dest_dir`,
sort them most-recently-modified first, and `unlink` every file past index
`keep`.  The function returns the directory listing after the deletions. -/
def rotate_backups (entries : List DirEnt) (keep : Nat) : List DirEnt :=
  let files := sortLe mtimeDesc (entries.filter (fun f => f.isFile))
  let doomed := files.drop keep
  entries.filter (fun e => !(doomed.any (fun d => d.name == e.name)))

/-- One data row of the audit log, as `log_entry` (lines 85-93) writes it.
The `timestamp`, `source` and `logfile` columns are fixed per run and the
one-time header row is not a record, so neither is modelled. -/
structure LogRow where
  backup_path : String
  status : String
  attempt : Nat
  msg : String
deriving DecidableEq, Repr

/-- The behaviour, during one loop iteration, of the effectful operations
`main` calls: the result of `make_backup`, of `verify_backup` on the path
the former returned, of each `log_entry` write (which appends the row when
it returns `ok` and appends nothing when opening the log raises), and of
`rotate_backups`.  The retry loop of `main` is embedded parametrically over
these per-attempt behaviours. -/
structure AttemptEnv where
  mb : Except PyErr String
  vb : String → Except PyErr Bool
  log : LogRow → Except PyErr Unit
  rot : Except PyErr Unit

/-- How one iteration of the `while` loop ends. -/
inductive AttemptRes where
  /-- `success = True` was reached -/
  | succeeded
  /-- the iteration finished with `success` still false (verification
  mismatch, or an exception caught and logged at lines 135-138) -/
  | failedRetry
  /-- an exception escaped the iteration (raised inside the `except`
  handler itself), aborting the loop -/
  | aborted (e : PyErr)
deriving DecidableEq, Repr

/-- Log rows appended by the iteration, the value of the `backup_path`
variable afterwards, and how the iteration ended. -/
structure AttemptResult where
  rows : List LogRow
  bp : String
  res : AttemptRes
deriving DecidableEq, Repr

/-- The `except Exception` handler (lines 135-138): write a failure row with
`backup_path or "n/a"` and `str(e)`.  If that `log_entry` call itself
raises, the new exception propagates and aborts the loop.  `sofar` holds the
rows already written earlier in this iteration. -/
def handle_exc (env : AttemptEnv) (i : Nat) (bp : String) (e : PyErr)
    (sofar : List LogRow) : AttemptResult :=
  let row : LogRow := ⟨if bp = "" then "n/a" else bp, "failure", i, e.toMsg⟩
  match env.log row with
  | .error e2 => ⟨sofar, bp, .aborted e2⟩
  | .ok _ => ⟨sofar ++ [row], bp, .failedRetry⟩

/-- One iteration of the `while` body (lines 122-138), with `i` the value of
`attempts` after the increment and `bp` the current `backup_path`. -/
def run_attempt (env : AttemptEnv) (i : Nat) (bp : String) : AttemptResult :=
  match env.mb with
  | .error e => handle_exc env i bp e []
  | .ok path =>
      match env.vb path with
      | .error e => handle_exc env i path e []
      | .ok true =>
          let row : LogRow := ⟨path, "success", i, ""⟩
          match env.log row with
          | .error e => handle_exc env i path e []
          | .ok _ =>
              match env.rot with
              | .error e => handle_exc env i path e [row]
              | .ok _ => ⟨[row], path, .succeeded⟩
      | .ok false =>
          let row : LogRow := ⟨path, "failure", i, "checksum mismatch"⟩
          match env.log row with
          | .error e => handle_exc env i path e []
          | .ok _ => ⟨[row], path, .failedRetry⟩

/-- How the whole backup branch of `main` (lines 118-142) ends. -/
inductive RunOutcome where
  /-- a verified backup: `main` returns normally (process exit 0) -/
  | exitSuccess (backup_path : String)
  /-- all attempts exhausted: `raise SystemExit(1)` at line 142 -/
  | exitFailure
  /-- an exception escaped the loop: the process dies with it -/
  | uncaught (e : PyErr)
deriving DecidableEq, Repr

/-- Final outcome, final value of `attempts`, and the log rows written. -/
structure RunResult where
  outcome : RunOutcome
  attempts : Nat
  log : List LogRow
deriving DecidableEq, Repr

/-- The `while attempts <= args.retries and not success` loop.  `remaining`
maintains `remaining = (retries + 1).toNat - attempts`, so `remaining > 0`
holds exactly when `attempts <= retries` does (for `attempts ≥ 0`), and the
loop body is entered exactly when the Python loop enters it. -/
def loop_iter (env : Nat → AttemptEnv) :
    Nat → Nat → String → List LogRow → RunResult
  | 0, attempts, _, acc => ⟨.exitFailure, attempts, acc⟩
  | remaining + 1, attempts, bp, acc =>
      let i := attempts + 1
      let r := run_attempt (env i) i bp
      match r.res with
      | .succeeded => ⟨.exitSuccess r.bp, i, acc ++ r.rows⟩
      | .failedRetry => loop_iter env remaining i r.bp (acc ++ r.rows)
      | .aborted e => ⟨.uncaught e, i, acc ++ r.rows⟩

/-- The backup branch of `main` (lines 118-142): `attempts = 0`,
`success = False`, `backup_path = ""`, the bounded retry loop, and
`SystemExit(1)` if no attempt succeeded.  `retries` is `args.retries`, an
arbitrary integer. -/
def main_run (env : Nat → AttemptEnv) (retries : Int) : RunResult :=
  loop_iter env (retries + 1).toNat 0 "" []

/-- An environment in which `make_backup` raises its `NameError` and every
`log_entry` call raises an `OSError` (an unwritable log file). -/
def log_broken_env : Nat → AttemptEnv := fun _ =>
  ⟨.error (.nameError "Path"), fun _ => .ok false,
   fun _ => .error (.oserror "log unwritable"), .ok ()⟩

/-- An environment in which archiving yields `paths i` on attempt `i`, the
verifier always answers `false`, and logging and rotation succeed. -/
def always_false_env (paths : Nat → String) : Nat → AttemptEnv := fun i =>
  ⟨.ok (paths i), fun _ => .ok false, fun _ => .ok (), .ok ()⟩

/-- The environment realised by the shipped code: `make_backup` raises its
`NameError` on every attempt, while the log writes succeed. -/
def create_fails_env : Nat → AttemptEnv := fun _ =>
  ⟨.error (.nameError "Path"), fun _ => .ok false, fun _ => .ok (), .ok ()⟩

/-- An environment in which `verify_backup` raises on every attempt while
archiving, logging and rotation succeed. -/
def verify_raises_env : Nat → AttemptEnv := fun _ =>
  ⟨.ok "p.tar", fun _ => .error (.tarError "corrupt"), fun _ => .ok (), .ok ()⟩

/-- An environment in which verification succeeds but `rotate_backups`
raises, while every log write succeeds. -/
def rotate_fails_env : Nat → AttemptEnv := fun _ =>
  ⟨.ok "p.tar", fun _ => .ok true, fun _ => .ok (), .error (.oserror "disk full")⟩

/-- An environment in which verification succeeds but the success-row log
write raises, while failure-row log writes succeed. -/
def successlog_fails_env : Nat → AttemptEnv := fun _ =>
  ⟨.ok "p.tar", fun _ => .ok true,
   fun row => if row.status = "success" then .error (.oserror "log full") else .ok (),
   .ok ()⟩

/-- An environment in which verification answers `false` and the
checksum-mismatch log write at line 132 raises, while the handler's
failure-row write (whose message is the exception text) succeeds. -/
def mismatchlog_fails_env : Nat → AttemptEnv := fun _ =>
  ⟨.ok "p.tar", fun _ => .ok false,
   fun row => if row.msg = "checksum mismatch" then .error (.oserror "log full") else .ok (),
   .ok ()⟩

/- ### Helper lemmas: the stable sort -/

theorem insertLe_perm (le : α → α → Bool) (a : α) (l : List α) :
    (insertLe le a l).Perm (a :: l) := by
  induction l with
  | nil => exact List.Perm.refl _
  | cons b l ih =>
    unfold insertLe
    cases h : le a b with
    | true => simp
    | false =>
      simp only [Bool.false_eq_true, if_false]
      exact (ih.cons b).trans (List.Perm.swap a b l)

theorem sortLe_perm (le : α → α → Bool) (l : List α) : (sortLe le l).Perm l := by
  induction l with
  | nil => exact List.Perm.refl _
  | cons a l ih => exact (insertLe_perm le a (sortLe le l)).trans (ih.cons a)

theorem pairwise_insertLe (le : α → α → Bool)
    (htrans : ∀ a b c, le a b = true → le b c = true → le a c = true)
    (htot : ∀ a b, le a b = true ∨ le b a = true) (a : α) (l : List α)
    (hl : l.Pairwise (fun x y => le x y = true)) :
    (insertLe le a l).Pairwise (fun x y => le x y = true) := by
  induction l with
  | nil => simp [insertLe]
  | cons b l ih =>
    rw [List.pairwise_cons] at hl
    obtain ⟨hb, hl2⟩ := hl
    unfold insertLe
    cases h : le a b with
    | true =>
      simp only [if_true]
      refine List.Pairwise.cons ?_ (List.Pairwise.cons hb hl2)
      intro c hc
      rcases List.mem_cons.mp hc with rfl | hc
      · exact h
      · exact htrans a b c h (hb c hc)
    | false =>
      simp only [Bool.false_eq_true, if_false]
      refine List.Pairwise.cons ?_ (ih hl2)
      intro c hc
      rcases List.mem_cons.mp ((insertLe_perm le a l).mem_iff.mp hc) with rfl | hc
      · rcases htot c b with h2 | h2
        · exact absurd h2 (by simp [h])
        · exact h2
      · exact hb c hc

theorem pairwise_sortLe (le : α → α → Bool)
    (htrans : ∀ a b c, le a b = true → le b c = true → le a c = true)
    (htot : ∀ a b, le a b = true ∨ le b a = true) (l : List α) :
    (sortLe le l).Pairwise (fun x y => le x y = true) := by
  induction l with
  | nil => simp [sortLe]
  | cons a l ih => exact pairwise_insertLe le htrans htot a (sortLe le l) ih

/- ### Helper lemmas: the filesystem map -/

theorem FS.lookup_cons (x : String × Entry) (s : FS) (p : String) :
    FS.lookup (x :: s) p = if x.1 = p then some x.2 else FS.lookup s p := by
  simp only [FS.lookup, List.find?_cons]
  by_cases h : x.1 = p
  · simp [h]
  · rw [show (x.1 == p) = false by simpa using h]
    rw [if_neg h]

theorem FS.erase_cons (x : String × Entry) (s : FS) (q : String) :
    FS.erase (x :: s) q = if x.1 = q then FS.erase s q else x :: FS.erase s q := by
  simp only [FS.erase, List.filter_cons]
  by_cases h : x.1 = q
  · simp [h]
  · simp [h]

theorem FS.lookup_erase_self (s : FS) (p : String) :
    FS.lookup (FS.erase s p) p = none := by
  induction s with
  | nil => rfl
  | cons x s ih =>
    rw [FS.erase_cons]
    by_cases hx : x.1 = p
    · simpa [hx] using ih
    · simpa [hx, FS.lookup_cons] using ih

theorem FS.lookup_erase_ne (s : FS) {p q : String} (h : p ≠ q) :
    FS.lookup (FS.erase s q) p = FS.lookup s p := by
  induction s with
  | nil => rfl
  | cons x s ih =>
    rw [FS.erase_cons]
    by_cases hx : x.1 = q
    · have hxp : x.1 ≠ p := fun hh => h (by rw [← hh, hx])
      rw [if_pos hx, ih, FS.lookup_cons, if_neg hxp]
    · rw [if_neg hx, FS.lookup_cons, FS.lookup_cons, ih]

theorem FS.lookup_insert_self (s : FS) (p : String) (e : Entry) :
    FS.lookup (FS.insert s p e) p = some e := by
  rw [FS.insert, FS.lookup_cons, if_pos rfl]

theorem FS.lookup_insert_ne (s : FS) {p q : String} (e : Entry) (h : p ≠ q) :
    FS.lookup (FS.insert s q e) p = FS.lookup s p := by
  have hqp : q ≠ p := fun hh => h hh.symm
  rw [FS.insert, FS.lookup_cons, if_neg hqp]
  exact FS.lookup_erase_ne s h

theorem FS.erase_erase (s : FS) (p : String) :
    FS.erase (FS.erase s p) p = FS.erase s p := by
  simp only [FS.erase, List.filter_filter, Bool.and_self]

theorem FS.erase_insert_self (s : FS) (p : String) (e : Entry) :
    FS.erase (FS.insert s p e) p = FS.erase s p := by
  rw [FS.insert, FS.erase_cons, if_pos rfl]
  exact FS.erase_erase s p

theorem FS.erase_of_lookup_none {s : FS} {p : String} (h : FS.lookup s p = none) :
    FS.erase s p = s := by
  induction s with
  | nil => rfl
  | cons x s ih =>
    rw [FS.lookup_cons] at h
    by_cases hx : x.1 = p
    · rw [if_pos hx] at h
      exact absurd h (by simp)
    · rw [if_neg hx] at h
      rw [FS.erase_cons, if_neg hx, ih h]

/- ### Helper lemmas: one retry-loop iteration -/

theorem run_attempt_mb_error (env : AttemptEnv) (i : Nat) (bp : String) (e : PyErr)
    (hmb : env.mb = .error e)
    (hfl : env.log ⟨if bp = "" then "n/a" else bp, "failure", i, PyErr.toMsg e⟩ = .ok ()) :
    run_attempt env i bp =
      ⟨[⟨if bp = "" then "n/a" else bp, "failure", i, PyErr.toMsg e⟩], bp, .failedRetry⟩ := by
  simp only [run_attempt, handle_exc, hmb, hfl, List.nil_append]

theorem run_attempt_vb_error (env : AttemptEnv) (i : Nat) (bp p : String) (e : PyErr)
    (hmb : env.mb = .ok p) (hvb : env.vb p = .error e)
    (hfl : env.log ⟨if p = "" then "n/a" else p, "failure", i, PyErr.toMsg e⟩ = .ok ()) :
    run_attempt env i bp =
      ⟨[⟨if p = "" then "n/a" else p, "failure", i, PyErr.toMsg e⟩], p, .failedRetry⟩ := by
  simp only [run_attempt, handle_exc, hmb, hvb, hfl, List.nil_append]

theorem run_attempt_successlog_error (env : AttemptEnv) (i : Nat) (bp p : String)
    (e : PyErr) (hmb : env.mb = .ok p) (hvb : env.vb p = .ok true)
    (hls : env.log ⟨p, "success", i, ""⟩ = .error e)
    (hfl : env.log ⟨if p = "" then "n/a" else p, "failure", i, PyErr.toMsg e⟩ = .ok ()) :
    run_attempt env i bp =
      ⟨[⟨if p = "" then "n/a" else p, "failure", i, PyErr.toMsg e⟩], p, .failedRetry⟩ := by
  simp only [run_attempt, handle_exc, hmb, hvb, hls, hfl, List.nil_append]

theorem run_attempt_rot_error (env : AttemptEnv) (i : Nat) (bp p : String) (e : PyErr)
    (hmb : env.mb = .ok p) (hvb : env.vb p = .ok true)
    (hls : env.log ⟨p, "success", i, ""⟩ = .ok ()) (hrot : env.rot = .error e)
    (hfl : env.log ⟨if p = "" then "n/a" else p, "failure", i, PyErr.toMsg e⟩ = .ok ()) :
    run_attempt env i bp =
      ⟨[⟨p, "success", i, ""⟩, ⟨if p = "" then "n/a" else p, "failure", i, PyErr.toMsg e⟩],
        p, .failedRetry⟩ := by
  simp only [run_attempt, handle_exc, hmb, hvb, hls, hrot, hfl]
  rfl

theorem run_attempt_mismatchlog_error (env : AttemptEnv) (i : Nat) (bp p : String)
    (e : PyErr) (hmb : env.mb = .ok p) (hvb : env.vb p = .ok false)
    (hlm : env.log ⟨p, "failure", i, "checksum mismatch"⟩ = .error e)
    (hfl : env.log ⟨if p = "" then "n/a" else p, "failure", i, PyErr.toMsg e⟩ = .ok ()) :
    run_attempt env i bp =
      ⟨[⟨if p = "" then "n/a" else p, "failure", i, PyErr.toMsg e⟩], p, .failedRetry⟩ := by
  simp only [run_attempt, handle_exc, hmb, hvb, hlm, hfl, List.nil_append]

theorem run_attempt_vfalse (env : AttemptEnv) (i : Nat) (bp p : String)
    (hmb : env.mb = .ok p) (hvb : ∀ q, env.vb q = .ok false)
    (hlog : ∀ row, env.log row = .ok ()) :
    run_attempt env i bp = ⟨[⟨p, "failure", i, "checksum mismatch"⟩], p, .failedRetry⟩ := by
  simp only [run_attempt, hmb, hvb, hlog]

theorem run_attempt_no_abort (env : AttemptEnv) (i : Nat) (bp : String)
    (hh : ∀ (b : String) (e : PyErr),
      env.log ⟨if b = "" then "n/a" else b, "failure", i, PyErr.toMsg e⟩ = .ok ()) :
    (run_attempt env i bp).res = .succeeded ∨ (run_attempt env i bp).res = .failedRetry := by
  cases hmb : env.mb with
  | error e => right; simp only [run_attempt, hmb, handle_exc, hh]
  | ok path =>
    cases hvb : env.vb path with
    | error e => right; simp only [run_attempt, hmb, hvb, handle_exc, hh]
    | ok b =>
      cases b with
      | false =>
        cases hlm : env.log ⟨path, "failure", i, "checksum mismatch"⟩ with
        | error e => right; simp only [run_attempt, hmb, hvb, hlm, handle_exc, hh]
        | ok u => right; simp only [run_attempt, hmb, hvb, hlm]
      | true =>
        cases hls : env.log ⟨path, "success", i, ""⟩ with
        | error e => right; simp only [run_attempt, hmb, hvb, hls, handle_exc, hh]
        | ok u =>
          cases hrot : env.rot with
          | error e => right; simp only [run_attempt, hmb, hvb, hls, hrot, handle_exc, hh]
          | ok u2 => left; simp only [run_attempt, hmb, hvb, hls, hrot]

theorem loop_iter_zero (env : Nat → AttemptEnv) (attempts : Nat) (bp : String)
    (acc : List LogRow) : loop_iter env 0 attempts bp acc = ⟨.exitFailure, attempts, acc⟩ :=
  rfl

theorem loop_iter_failed_step (env : Nat → AttemptEnv) (rem attempts : Nat)
    (bp : String) (acc rows : List LogRow) (bp2 : String)
    (h : run_attempt (env (attempts + 1)) (attempts + 1) bp = ⟨rows, bp2, .failedRetry⟩) :
    loop_iter env (rem + 1) attempts bp acc =
      loop_iter env rem (attempts + 1) bp2 (acc ++ rows) := by
  simp only [loop_iter, h]

theorem loop_no_abort (env : Nat → AttemptEnv)
    (hh : ∀ (i : Nat) (b : String) (e : PyErr),
      (env i).log ⟨if b = "" then "n/a" else b, "failure", i, PyErr.toMsg e⟩ = .ok ())
    (rem : Nat) :
    ∀ (attempts : Nat) (bp : String) (acc : List LogRow),
      (loop_iter env rem attempts bp acc).outcome = .exitFailure ∨
        ∃ p, (loop_iter env rem attempts bp acc).outcome = .exitSuccess p := by
  induction rem with
  | zero => intro attempts bp acc; left; rfl
  | succ rem ih =>
    intro attempts bp acc
    rcases run_attempt_no_abort (env (attempts + 1)) (attempts + 1) bp (hh _) with h | h
    · right
      refine ⟨(run_attempt (env (attempts + 1)) (attempts + 1) bp).bp, ?_⟩
      simp only [loop_iter, h]
    · simp only [loop_iter, h]
      exact ih (attempts + 1) _ _


/- ### Claim theorems -/

/-- C1: the round-trip property `verify(source, create(source, destDir,
compress)) = true` cannot hold on the shipped code: for a concrete readable
file source, destination directory and either compress flag, `make_backup`
raises `NameError` (unbound name `Path`, line 22) before producing any
archive, so `verify_backup` is never reached with an archive to verify. -/
theorem roundtrip_blocked_create_raises (compress : Bool) :
    (make_backup "server_logs.csv" "./backups" compress []).1 =
      .error (.nameError "Path") := rfl

/-- C2: for every source path, destination directory, compress flag and
filesystem state, `make_backup` raises `NameError` for the unbound name
`Path` and leaves the filesystem untouched: no archive path is returned, no
destination directory is created, no artifact is written. -/
theorem make_backup_always_nameError (source dest_dir : String) (compress : Bool)
    (s : FS) : make_backup source dest_dir compress s = (.error (.nameError "Path"), s) :=
  rfl

/-- C3: with `retries = 2` and an environment whose archiver succeeds, whose
verifier always answers `false`, and whose log writes succeed, the controller
performs exactly 3 attempts, writes exactly one failure record per attempt
numbered 1, 2, 3, and the run ends in `SystemExit(1)` (failure status). -/
theorem retry_budget_three_attempts
    (env : Nat → AttemptEnv) (paths : Nat → String)
    (hmb : ∀ i, (env i).mb = .ok (paths i))
    (hvb : ∀ i p, (env i).vb p = .ok false)
    (hlog : ∀ i row, (env i).log row = .ok ()) :
    main_run env 2 =
      ⟨.exitFailure, 3,
        [⟨paths 1, "failure", 1, "checksum mismatch"⟩,
         ⟨paths 2, "failure", 2, "checksum mismatch"⟩,
         ⟨paths 3, "failure", 3, "checksum mismatch"⟩]⟩ := by
  have h1 := run_attempt_vfalse (env 1) 1 "" (paths 1) (hmb 1) (hvb 1) (hlog 1)
  have h2 := run_attempt_vfalse (env 2) 2 (paths 1) (paths 2) (hmb 2) (hvb 2) (hlog 2)
  have h3 := run_attempt_vfalse (env 3) 3 (paths 2) (paths 3) (hmb 3) (hvb 3) (hlog 3)
  show loop_iter env (2 + 1) 0 "" [] = _
  rw [loop_iter_failed_step env 2 0 "" [] _ _ h1]
  show loop_iter env (1 + 1) 1 (paths 1) [⟨paths 1, "failure", 1, "checksum mismatch"⟩] = _
  rw [loop_iter_failed_step env 1 1 (paths 1) _ _ _ h2]
  show loop_iter env (0 + 1) 2 (paths 2)
      [⟨paths 1, "failure", 1, "checksum mismatch"⟩,
       ⟨paths 2, "failure", 2, "checksum mismatch"⟩] = _
  rw [loop_iter_failed_step env 0 2 (paths 2) _ _ _ h3]
  rfl

/-- C3 witness: the theorem applied to a concrete environment. -/
theorem retry_budget_three_attempts_witness :
    main_run (always_false_env (fun _ => "b.tar")) 2 =
      ⟨.exitFailure, 3,
        [⟨"b.tar", "failure", 1, "checksum mismatch"⟩,
         ⟨"b.tar", "failure", 2, "checksum mismatch"⟩,
         ⟨"b.tar", "failure", 3, "checksum mismatch"⟩]⟩ :=
  retry_budget_three_attempts (always_false_env (fun _ => "b.tar")) (fun _ => "b.tar")
    (fun _ => rfl) (fun _ _ => rfl) (fun _ _ => rfl)

/-- C4 counterexample: renaming the single file of a directory (content
`"hi"` = bytes 104, 105) while keeping its content leaves `agg_checksum`
unchanged — the aggregate feeds only the per-file content digests, never the
paths, into the accumulator, so the claim that any rename changes the
aggregate digest is false. -/
theorem agg_checksum_rename_counterexample :
    agg_checksum [("a.txt", [104, 105])] = agg_checksum [("b.txt", [104, 105])] := rfl

/-- C4 amended: `agg_checksum` depends only on the sequence of per-file
content digests in path-sorted order; any rename (content unchanged) that
preserves that sequence — in particular renaming the only file — leaves the
aggregate digest unchanged, and only renames that reorder the sequence can
change it. -/
theorem agg_checksum_depends_only_on_digest_seq
    (fs gs : List (String × Bytes))
    (h : (sortLe pathLe fs).map (fun f => sha256_of_file f.2) =
         (sortLe pathLe gs).map (fun f => sha256_of_file f.2)) :
    agg_checksum fs = agg_checksum gs := by
  unfold agg_checksum
  have h2 : (sortLe pathLe fs).map (fun f => strBytes (sha256_of_file f.2)) =
      (sortLe pathLe gs).map (fun f => strBytes (sha256_of_file f.2)) := by
    have h3 := congrArg (fun l => l.map strBytes) h
    simpa [List.map_map, Function.comp] using h3
  rw [h2]

/-- C4 witness: the amended theorem applied to a concrete rename. -/
theorem agg_checksum_depends_only_on_digest_seq_witness :
    ((sortLe pathLe [("old.txt", [1, 2, 3])]).map (fun f => sha256_of_file f.2) =
      (sortLe pathLe [("new.txt", [1, 2, 3])]).map (fun f => sha256_of_file f.2))
    ∧ agg_checksum [("old.txt", [1, 2, 3])] = agg_checksum [("new.txt", [1, 2, 3])] :=
  ⟨rfl, agg_checksum_depends_only_on_digest_seq _ _ rfl⟩

/-- C5 counterexample: with `retries = 2` (attempt budget 3), an attempt in
which `make_backup` raises and the failure-log write then also raises ends
the whole run after a single attempt with the logger's exception uncaught
and no outcome recorded — refuting that every error inside an attempt is
converted into exactly one recorded failure outcome with the loop
continuing. -/
theorem retry_loop_aborts_on_log_failure :
    main_run log_broken_env 2 = ⟨.uncaught (.oserror "log unwritable"), 1, []⟩ := rfl

/-- C5 amended: whenever an error is raised inside one attempt — during
create, during verify, or during the handling of their outcome (the
success-row log write, the retention pass, or the mismatch-row log write) —
and the failure-log write the `except` handler then performs succeeds, the
iteration records exactly one failure outcome for that error and ends in
retry; and provided all the handler's failure-log writes succeed, no error
raised inside an attempt terminates the retry loop (the run always ends in
exit-failure or exit-success, never with an uncaught exception).  If the
handler's failure-log write itself raises, that exception propagates and
aborts the loop early (see the counterexample). -/
theorem retry_loop_survives_errors_when_log_ok
    (env : Nat → AttemptEnv) (retries : Int) :
    ((∀ (i : Nat) (b : String) (e : PyErr),
        (env i).log ⟨if b = "" then "n/a" else b, "failure", i, PyErr.toMsg e⟩ = .ok ()) →
      (main_run env retries).outcome = .exitFailure ∨
        ∃ p, (main_run env retries).outcome = .exitSuccess p)
    ∧ (∀ i bp e, (env i).mb = .error e →
        (env i).log ⟨if bp = "" then "n/a" else bp, "failure", i, PyErr.toMsg e⟩ = .ok () →
        run_attempt (env i) i bp =
          ⟨[⟨if bp = "" then "n/a" else bp, "failure", i, PyErr.toMsg e⟩], bp,
            .failedRetry⟩)
    ∧ (∀ i bp p e, (env i).mb = .ok p → (env i).vb p = .error e →
        (env i).log ⟨if p = "" then "n/a" else p, "failure", i, PyErr.toMsg e⟩ = .ok () →
        run_attempt (env i) i bp =
          ⟨[⟨if p = "" then "n/a" else p, "failure", i, PyErr.toMsg e⟩], p,
            .failedRetry⟩)
    ∧ (∀ i bp p e, (env i).mb = .ok p → (env i).vb p = .ok true →
        (env i).log ⟨p, "success", i, ""⟩ = .error e →
        (env i).log ⟨if p = "" then "n/a" else p, "failure", i, PyErr.toMsg e⟩ = .ok () →
        run_attempt (env i) i bp =
          ⟨[⟨if p = "" then "n/a" else p, "failure", i, PyErr.toMsg e⟩], p,
            .failedRetry⟩)
    ∧ (∀ i bp p e, (env i).mb = .ok p → (env i).vb p = .ok true →
        (env i).log ⟨p, "success", i, ""⟩ = .ok () → (env i).rot = .error e →
        (env i).log ⟨if p = "" then "n/a" else p, "failure", i, PyErr.toMsg e⟩ = .ok () →
        run_attempt (env i) i bp =
          ⟨[⟨p, "success", i, ""⟩,
            ⟨if p = "" then "n/a" else p, "failure", i, PyErr.toMsg e⟩], p, .failedRetry⟩)
    ∧ (∀ i bp p e, (env i).mb = .ok p → (env i).vb p = .ok false →
        (env i).log ⟨p, "failure", i, "checksum mismatch"⟩ = .error e →
        (env i).log ⟨if p = "" then "n/a" else p, "failure", i, PyErr.toMsg e⟩ = .ok () →
        run_attempt (env i) i bp =
          ⟨[⟨if p = "" then "n/a" else p, "failure", i, PyErr.toMsg e⟩], p,
            .failedRetry⟩) := by
  refine ⟨fun hh => loop_no_abort env hh _ 0 "" [], ?_, ?_, ?_, ?_, ?_⟩
  · intro i bp e hmb hfl
    exact run_attempt_mb_error (env i) i bp e hmb hfl
  · intro i bp p e hmb hvb hfl
    exact run_attempt_vb_error (env i) i bp p e hmb hvb hfl
  · intro i bp p e hmb hvb hls hfl
    exact run_attempt_successlog_error (env i) i bp p e hmb hvb hls hfl
  · intro i bp p e hmb hvb hls hrot hfl
    exact run_attempt_rot_error (env i) i bp p e hmb hvb hls hrot hfl
  · intro i bp p e hmb hvb hlm hfl
    exact run_attempt_mismatchlog_error (env i) i bp p e hmb hvb hlm hfl

/-- C5 witness: the amended theorem applied at concrete environments, one
per error site — create raising (the shipped code's `NameError`), verify
raising, the success-row log write raising, `rotate_backups` raising, and
the mismatch-row log write raising — discharging every hypothesis. -/
theorem retry_loop_survives_errors_when_log_ok_witness :
    ((main_run create_fails_env 2).outcome = .exitFailure ∨
      ∃ p, (main_run create_fails_env 2).outcome = .exitSuccess p)
    ∧ run_attempt (create_fails_env 1) 1 "" =
        ⟨[⟨if "" = "" then "n/a" else "", "failure", 1, PyErr.toMsg (.nameError "Path")⟩],
          "", .failedRetry⟩
    ∧ run_attempt (verify_raises_env 1) 1 "" =
        ⟨[⟨if "p.tar" = "" then "n/a" else "p.tar", "failure", 1,
            PyErr.toMsg (.tarError "corrupt")⟩], "p.tar", .failedRetry⟩
    ∧ run_attempt (successlog_fails_env 1) 1 "" =
        ⟨[⟨if "p.tar" = "" then "n/a" else "p.tar", "failure", 1,
            PyErr.toMsg (.oserror "log full")⟩], "p.tar", .failedRetry⟩
    ∧ run_attempt (rotate_fails_env 1) 1 "" =
        ⟨[⟨"p.tar", "success", 1, ""⟩,
          ⟨if "p.tar" = "" then "n/a" else "p.tar", "failure", 1,
            PyErr.toMsg (.oserror "disk full")⟩], "p.tar", .failedRetry⟩
    ∧ run_attempt (mismatchlog_fails_env 1) 1 "" =
        ⟨[⟨if "p.tar" = "" then "n/a" else "p.tar", "failure", 1,
            PyErr.toMsg (.oserror "log full")⟩], "p.tar", .failedRetry⟩ :=
  ⟨(retry_loop_survives_errors_when_log_ok create_fails_env 2).1 (fun _ _ _ => rfl),
   (retry_loop_survives_errors_when_log_ok create_fails_env 2).2.1 1 ""
     (.nameError "Path") rfl rfl,
   (retry_loop_survives_errors_when_log_ok verify_raises_env 2).2.2.1 1 "" "p.tar"
     (.tarError "corrupt") rfl rfl rfl,
   (retry_loop_survives_errors_when_log_ok successlog_fails_env 2).2.2.2.1 1 "" "p.tar"
     (.oserror "log full") rfl rfl rfl rfl,
   (retry_loop_survives_errors_when_log_ok rotate_fails_env 2).2.2.2.2.1 1 "" "p.tar"
     (.oserror "disk full") rfl rfl rfl rfl rfl,
   (retry_loop_survives_errors_when_log_ok mismatchlog_fails_env 2).2.2.2.2.2 1 "" "p.tar"
     (.oserror "log full") rfl rfl rfl rfl⟩

/-- C8: on every exit path of `verify_backup`, no scratch directory the call
created is left behind: for every source, archive (including failed
extraction) and starting filesystem, either the final filesystem contains
nothing at the scratch path — covering every exit of the `try` body
(returning true, returning false, an exception from extraction, member
lookup or hashing), where the `finally:` removes the scratch — or the call
failed at line 47 before creating any scratch (`shutil.rmtree` raising
`NotADirectoryError` on a pre-existing regular file) and left the filesystem
exactly as it found it. -/
theorem verify_backup_scratch_removed (source : Source) (backup : Backup) (s : FS) :
    FS.lookup (verify_backup source backup s).2 tmp_restore = none
    ∨ verify_backup source backup s = (.error .notADirectoryError, s) := by
  cases hl : FS.lookup s tmp_restore with
  | none =>
    left
    simp only [verify_backup, hl]
    exact FS.lookup_erase_self _ _
  | some e =>
    cases e with
    | file c =>
      right
      simp only [verify_backup, hl]
    | dir d =>
      left
      simp only [verify_backup, hl]
      exact FS.lookup_erase_self _ _

/-- C9: `verify_backup` uses the fixed scratch path `./.tmp_restore`: a
pre-existing directory there — whatever its contents — is recursively
deleted before verification begins, so the call behaves exactly as if
nothing had existed at that path; and no path other than `./.tmp_restore`
is ever affected, on any input and any starting state (including the
line-47 `NotADirectoryError` exit on a pre-existing regular file, which
changes nothing at all). -/
theorem verify_backup_fixed_scratch (source : Source) (backup : Backup) (s : FS) :
    (∀ d : List (String × Bytes),
      verify_backup source backup (FS.insert s tmp_restore (.dir d)) =
        verify_backup source backup (FS.erase s tmp_restore))
    ∧ (∀ p : String, p ≠ tmp_restore →
        FS.lookup (verify_backup source backup s).2 p = FS.lookup s p) := by
  have body_frame : ∀ (t : FS) (p : String), p ≠ tmp_restore →
      FS.lookup (verify_body source backup t).2 p = FS.lookup t p := by
    intro t p hp
    unfold verify_body
    cases backup with
    | badTar e => rfl
    | plain c =>
      cases source with
      | file n c2 => rfl
      | dir n f2 => rfl
    | tar members =>
      cases source with
      | file n c2 =>
        cases hf : members.filter (fun m => baseName m.1 == n) with
        | nil => simp only [hf]; exact FS.lookup_insert_ne t _ hp
        | cons m ms => simp only [hf]; exact FS.lookup_insert_ne t _ hp
      | dir n f2 => exact FS.lookup_insert_ne t _ hp
  refine ⟨?_, ?_⟩
  · intro d
    have h1 : FS.lookup (FS.insert s tmp_restore (Entry.dir d)) tmp_restore =
        some (.dir d) := FS.lookup_insert_self s tmp_restore (Entry.dir d)
    have h2 : FS.lookup (FS.erase s tmp_restore) tmp_restore = none :=
      FS.lookup_erase_self s tmp_restore
    simp only [verify_backup, h1, h2, FS.erase_insert_self]
  · intro p hp
    cases hl : FS.lookup s tmp_restore with
    | none =>
      simp only [verify_backup, hl]
      rw [FS.lookup_erase_ne _ hp, body_frame _ p hp, FS.lookup_insert_ne _ _ hp]
    | some e =>
      cases e with
      | file c => simp only [verify_backup, hl]
      | dir d =>
        simp only [verify_backup, hl]
        rw [FS.lookup_erase_ne _ hp, body_frame _ p hp, FS.lookup_insert_ne _ _ hp,
          FS.lookup_erase_ne _ hp]

/-- C9 witness: the theorem applied to a concrete state with a junk
directory already at `./.tmp_restore` and an unrelated path. -/
theorem verify_backup_fixed_scratch_witness :
    verify_backup (.file "a" [1]) (.plain [1])
        (FS.insert [("other", Entry.file [5])] tmp_restore (.dir [("junk", [9])])) =
      verify_backup (.file "a" [1]) (.plain [1])
        (FS.erase [("other", Entry.file [5])] tmp_restore)
    ∧ FS.lookup
        (verify_backup (.file "a" [1]) (.plain [1]) [("other", Entry.file [5])]).2
        "other" =
      FS.lookup [("other", Entry.file [5])] "other" :=
  ⟨(verify_backup_fixed_scratch _ _ _).1 [("junk", [9])],
   (verify_backup_fixed_scratch _ _ _).2 "other" (by decide)⟩

/-- C10: if `retries` is negative, the loop condition `attempts <= retries`
fails immediately: zero attempts are performed, no log row is written, no
environment operation (hence no artifact creation) is invoked — the result
is the same for every environment — and the run ends in `SystemExit(1)`. -/
theorem negative_retries_no_attempts (env : Nat → AttemptEnv) (retries : Int)
    (h : retries < 0) : main_run env retries = ⟨.exitFailure, 0, []⟩ := by
  unfold main_run
  rw [show (retries + 1).toNat = 0 by omega]
  rfl

/-- C10 witness: the theorem applied at `retries = -1`. -/
theorem negative_retries_no_attempts_witness :
    (-1 : Int) < 0 ∧
      main_run (always_false_env (fun _ => "p")) (-1) = ⟨.exitFailure, 0, []⟩ :=
  ⟨by decide, negative_retries_no_attempts (always_false_env (fun _ => "p")) (-1) (by decide)⟩

/- ### Helper lemmas: retention -/

theorem mtimeDesc_trans (a b c : DirEnt) (h1 : mtimeDesc a b = true)
    (h2 : mtimeDesc b c = true) : mtimeDesc a c = true := by
  simp only [mtimeDesc, decide_eq_true_eq] at h1 h2 ⊢
  omega

theorem mtimeDesc_total (a b : DirEnt) : mtimeDesc a b = true ∨ mtimeDesc b a = true := by
  simp only [mtimeDesc, decide_eq_true_eq]
  omega

theorem rotate_eq_self_of_short (l : List DirEnt) (keep : Nat)
    (hf : ∀ e ∈ l, e.isFile = true) (hlen : l.length ≤ keep) :
    rotate_backups l keep = l := by
  simp only [rotate_backups]
  rw [List.filter_eq_self.mpr hf]
  rw [List.drop_eq_nil_of_le (((sortLe_perm mtimeDesc l).length_eq).trans_le hlen)]
  simp

/-- C7: for a destination directory of 5 regular files with pairwise
distinct modification times (and distinct names, as directory entries have)
and `keep = 2`, `rotate_backups` leaves exactly 2 entries, all drawn from
the original listing, every survivor strictly newer than every deleted
entry (so exactly the 2 most recent remain and the 3 least recent are
deleted), and a second application with the same `keep` deletes nothing. -/
theorem rotate_retention_and_idempotent (entries : List DirEnt)
    (hlen : entries.length = 5)
    (hfile : ∀ e ∈ entries, e.isFile = true)
    (hmt : (entries.map DirEnt.mtime).Nodup)
    (hnm : (entries.map DirEnt.name).Nodup) :
    (rotate_backups entries 2).length = 2
    ∧ (∀ e ∈ rotate_backups entries 2, e ∈ entries)
    ∧ (∀ e ∈ rotate_backups entries 2, ∀ d ∈ entries, d ∉ rotate_backups entries 2 →
        d.mtime < e.mtime)
    ∧ rotate_backups (rotate_backups entries 2) 2 = rotate_backups entries 2 := by
  set F := sortLe mtimeDesc entries with hF
  have hperm : F.Perm entries := sortLe_perm _ _
  have hFnames : (F.map DirEnt.name).Nodup := ((hperm.map DirEnt.name).nodup_iff).mpr hnm
  have hFmt : (F.map DirEnt.mtime).Nodup := ((hperm.map DirEnt.mtime).nodup_iff).mpr hmt
  have hFnodup : F.Nodup := List.Nodup.of_map DirEnt.name hFnames
  have hEnodup : entries.Nodup := List.Nodup.of_map DirEnt.name hnm
  have hsorted : F.Pairwise (fun a b => mtimeDesc a b = true) :=
    pairwise_sortLe mtimeDesc mtimeDesc_trans mtimeDesc_total entries
  have hstrict : F.Pairwise (fun a b => b.mtime < a.mtime) := by
    have hne : F.Pairwise (fun a b => a.mtime ≠ b.mtime) := List.pairwise_map.mp hFmt
    refine (hsorted.and hne).imp ?_
    intro a b hab
    obtain ⟨h1, h2⟩ := hab
    simp only [mtimeDesc, decide_eq_true_eq] at h1
    omega
  have hrw : rotate_backups entries 2 =
      entries.filter (fun e => !((F.drop 2).any (fun d => d.name == e.name))) := by
    simp only [rotate_backups]
    rw [List.filter_eq_self.mpr hfile]
  have hdisj : ((F.take 2).map DirEnt.name).Disjoint ((F.drop 2).map DirEnt.name) := by
    have hsplit : ((F.take 2).map DirEnt.name ++ (F.drop 2).map DirEnt.name).Nodup := by
      rw [← List.map_append, List.take_append_drop]
      exact hFnames
    exact (List.nodup_append.mp hsplit).2.2
  have hmemdrop : ∀ x ∈ entries,
      ((F.drop 2).any (fun d => d.name == x.name) = true ↔ x ∈ F.drop 2) := by
    intro x hx
    constructor
    · intro h
      obtain ⟨d, hd, hdn⟩ := List.any_eq_true.mp h
      have hdn2 : d.name = x.name := by simpa using hdn
      have hxF : x ∈ F.take 2 ++ F.drop 2 := by
        rw [List.take_append_drop]
        exact hperm.mem_iff.mpr hx
      rcases List.mem_append.mp hxF with hT | hD
      · exact absurd (List.mem_map.mpr ⟨d, hd, hdn2⟩)
          (hdisj (List.mem_map.mpr ⟨x, hT, rfl⟩))
      · exact hD
    · intro h
      exact List.any_eq_true.mpr ⟨x, h, by simp⟩
  have hmem : ∀ x, x ∈ rotate_backups entries 2 ↔ x ∈ F.take 2 := by
    intro x
    rw [hrw]
    constructor
    · intro hx
      obtain ⟨hxe, hpred⟩ := List.mem_filter.mp hx
      have hany : ¬ ((F.drop 2).any (fun d => d.name == x.name) = true) := by
        simpa using hpred
      have hxF : x ∈ F.take 2 ++ F.drop 2 := by
        rw [List.take_append_drop]
        exact hperm.mem_iff.mpr hxe
      rcases List.mem_append.mp hxF with hT | hD
      · exact hT
      · exact absurd ((hmemdrop x hxe).mpr hD) hany
    · intro hT
      have hxF : x ∈ F := by
        rw [← List.take_append_drop 2 F]
        exact List.mem_append.mpr (.inl hT)
      have hxe : x ∈ entries := hperm.mem_iff.mp hxF
      refine List.mem_filter.mpr ⟨hxe, ?_⟩
      have hnotdrop : ¬ ((F.drop 2).any (fun d => d.name == x.name) = true) := by
        intro h
        have hD := (hmemdrop x hxe).mp h
        exact hdisj (List.mem_map.mpr ⟨x, hT, rfl⟩) (List.mem_map.mpr ⟨x, hD, rfl⟩)
      simpa using hnotdrop
  have hsub : ∀ e ∈ rotate_backups entries 2, e ∈ entries := by
    intro e he
    have heT := (hmem e).mp he
    have : e ∈ F := by
      rw [← List.take_append_drop 2 F]
      exact List.mem_append.mpr (.inl heT)
    exact hperm.mem_iff.mp this
  have hknodup : (rotate_backups entries 2).Nodup := by
    rw [hrw]
    exact List.Nodup.sublist (List.filter_sublist entries) hEnodup
  have hTnodup : (F.take 2).Nodup :=
    List.Nodup.sublist (List.take_sublist 2 F) hFnodup
  have hkperm : (rotate_backups entries 2).Perm (F.take 2) :=
    (List.perm_ext_iff_of_nodup hknodup hTnodup).mpr hmem
  have hFlen : F.length = 5 := hperm.length_eq.trans hlen
  have hklen : (rotate_backups entries 2).length = 2 := by
    rw [hkperm.length_eq, List.length_take, hFlen]
    omega
  have hcross : ∀ x ∈ F.take 2, ∀ y ∈ F.drop 2, y.mtime < x.mtime := by
    have h := hstrict
    rw [← List.take_append_drop 2 F] at h
    exact (List.pairwise_append.mp h).2.2
  refine ⟨hklen, hsub, ?_, ?_⟩
  · intro e he d hd hdk
    have heT := (hmem e).mp he
    have hdF : d ∈ F.take 2 ++ F.drop 2 := by
      rw [List.take_append_drop]
      exact hperm.mem_iff.mpr hd
    rcases List.mem_append.mp hdF with hT | hD
    · exact absurd ((hmem d).mpr hT) hdk
    · exact hcross e heT d hD
  · exact rotate_eq_self_of_short _ 2
      (fun e he => hfile e (hsub e he)) (le_of_eq hklen)

/-- C7 witness: the theorem applied to a concrete 5-file directory. -/
theorem rotate_retention_and_idempotent_witness :
    ([(⟨"a", true, 1⟩ : DirEnt), ⟨"b", true, 5⟩, ⟨"c", true, 3⟩, ⟨"d", true, 2⟩,
        ⟨"e", true, 4⟩].length = 5)
    ∧ ((rotate_backups [⟨"a", true, 1⟩, ⟨"b", true, 5⟩, ⟨"c", true, 3⟩, ⟨"d", true, 2⟩,
          ⟨"e", true, 4⟩] 2).length = 2
      ∧ (∀ e ∈ rotate_backups [⟨"a", true, 1⟩, ⟨"b", true, 5⟩, ⟨"c", true, 3⟩,
            ⟨"d", true, 2⟩, ⟨"e", true, 4⟩] 2,
          e ∈ [(⟨"a", true, 1⟩ : DirEnt), ⟨"b", true, 5⟩, ⟨"c", true, 3⟩, ⟨"d", true, 2⟩,
            ⟨"e", true, 4⟩])
      ∧ (∀ e ∈ rotate_backups [⟨"a", true, 1⟩, ⟨"b", true, 5⟩, ⟨"c", true, 3⟩,
            ⟨"d", true, 2⟩, ⟨"e", true, 4⟩] 2,
          ∀ d ∈ [(⟨"a", true, 1⟩ : DirEnt), ⟨"b", true, 5⟩, ⟨"c", true, 3⟩, ⟨"d", true, 2⟩,
            ⟨"e", true, 4⟩],
          d ∉ rotate_backups [⟨"a", true, 1⟩, ⟨"b", true, 5⟩, ⟨"c", true, 3⟩,
            ⟨"d", true, 2⟩, ⟨"e", true, 4⟩] 2 → d.mtime < e.mtime)
      ∧ rotate_backups (rotate_backups [⟨"a", true, 1⟩, ⟨"b", true, 5⟩, ⟨"c", true, 3⟩,
            ⟨"d", true, 2⟩, ⟨"e", true, 4⟩] 2) 2 =
          rotate_backups [⟨"a", true, 1⟩, ⟨"b", true, 5⟩, ⟨"c", true, 3⟩, ⟨"d", true, 2⟩,
            ⟨"e", true, 4⟩] 2) :=
  ⟨rfl, rotate_retention_and_idempotent _ rfl (by decide) (by decide) (by decide)⟩
